import Mathlib

/-!
Verification of the core of the noc-node-app repository: the Log Entity
(embedded from the log.entity source file) and the three use cases —
single-target check, multi-repository check and send-email-with-logs —
whose implementation files are absent from the sources at hand; those
three are modelled from the specification, with their test files pinning
the observable behavior.
-/

/-- Model of a JavaScript Date value: a valid instant in epoch
milliseconds, or the Invalid Date sentinel (time value NaN) that results
from constructing a Date out of an undefined or unparseable argument. -/
inductive JsDate where
  | valid (ms : Int)
  | invalid
  deriving DecidableEq, Repr

/-- The LogSeverityLevel enumeration of the source, whose three members
carry the string values low, medium and high. -/
inductive LogSeverityLevel where
  | low
  | medium
  | high
  deriving DecidableEq, Repr

/-- The string value each enumeration member carries in the source. -/
def LogSeverityLevel.str : LogSeverityLevel → String
  | LogSeverityLevel.low => "low"
  | LogSeverityLevel.medium => "medium"
  | LogSeverityLevel.high => "high"

/-- Whether a raw string is one of the three enumerated severity
values. -/
def isLevelValue (s : String) : Bool :=
  s == "low" || s == "medium" || s == "high"

/-- The LogEntity record of the source. Field values arriving through
the untyped construction paths (fromObject, fromJson) can be absent, so
the text fields are Options; level holds the raw value, which the source
validates nowhere. -/
structure LogEntity where
  message : Option String
  level : Option String
  origin : Option String
  createdAt : JsDate
  deriving DecidableEq, Repr

/-- The options record the LogEntity constructor receives; createdAt is
optional and defaults to the construction instant. -/
structure LogEntityOptions where
  message : Option String
  level : Option String
  origin : Option String
  createdAt : Option JsDate
  deriving DecidableEq, Repr

/-- The LogEntity constructor of the source: copies the four fields,
substituting the construction instant (new Date converted here to the
explicit now argument) when createdAt is absent. -/
def LogEntity.ofOptions (now : Int) (o : LogEntityOptions) : LogEntity :=
  { message := o.message
    level := o.level
    origin := o.origin
    createdAt := o.createdAt.getD (JsDate.valid now) }

/-- An untyped key-value mapping restricted to the four keys the source
destructures; a missing key reads as undefined (none). In a record
obtained by parsing serialized text, the createdAt entry denotes the
instant its ISO-8601 text encodes, or invalid when that text does not
parse as a date. -/
structure JsRecord where
  message : Option String
  level : Option String
  origin : Option String
  createdAt : Option JsDate
  deriving DecidableEq, Repr

/-- The mapping with no keys: what the empty object text parses to. -/
def emptyRecord : JsRecord :=
  { message := none, level := none, origin := none, createdAt := none }

/-- LogEntity.fromObject of the source: destructures the mapping and
hands every field, createdAt included, to the constructor unchanged, so
an absent createdAt triggers the constructor default. -/
def LogEntity.fromObject (now : Int) (obj : JsRecord) : LogEntity :=
  LogEntity.ofOptions now
    { message := obj.message
      level := obj.level
      origin := obj.origin
      createdAt := obj.createdAt }

/-- Model of new Date applied to the createdAt field read out of a
parsed record: an undefined argument yields Invalid Date, a defined one
yields the instant it denotes (or Invalid Date when it does not
parse, already folded into the JsDate it denotes). -/
def jsNewDate : Option JsDate → JsDate
  | none => JsDate.invalid
  | some d => d

/-- The JSON text handed to fromJson, modelled by what JSON.parse yields
on it: the empty string, or a well-formed object text given by the
record it parses to. -/
inductive JsonText where
  | empty
  | record (r : JsRecord)
  deriving DecidableEq, Repr

/-- LogEntity.fromJson of the source: the empty string is replaced by
the empty object text, the text is parsed, and the constructor is called
with createdAt set to new Date of the parsed createdAt — a value that is
always supplied, so the constructor default never applies on this
path. -/
def LogEntity.fromJson (now : Int) (json : JsonText) : LogEntity :=
  let r := match json with
    | JsonText.empty => emptyRecord
    | JsonText.record r => r
  LogEntity.ofOptions now
    { message := r.message
      level := r.level
      origin := r.origin
      createdAt := some (jsNewDate r.createdAt) }

/-- Modelled from the spec: the serialized Log Entity representation of
section 6 (the serializer itself is not among the sources). message,
level and origin are stored as given; createdAt is stored as ISO-8601
text, denoted here by the instant that text encodes. -/
def LogEntity.serialize (e : LogEntity) : JsRecord :=
  { message := e.message
    level := e.level
    origin := e.origin
    createdAt := some e.createdAt }

/-- Whether an entity's level lies in the severity enumeration. -/
def levelInEnum (e : LogEntity) : Bool :=
  match e.level with
  | some s => isLevelValue s
  | none => false

/-- The outcome of the fetch probe of a URL: the request resolves with
an ok-class response, resolves with a non-ok status, or rejects with a
transport error rendered as text. -/
inductive ProbeOutcome where
  | resolvedOk
  | resolvedNotOk (status : Nat) (statusText : String)
  | rejected (e : String)
  deriving DecidableEq, Repr

/-- Modelled from the spec: the failure text the check use cases build
for a failed probe. Section 4.1 fixes only that the text carries the
failure reason and the url; a concrete format carrying both is
chosen. -/
def checkErrorMessage (url reason : String) : String :=
  "Service " ++ url ++ " failing: " ++ reason

/-- The failure reason text of a probe that did not come back ok. -/
def probeReason : ProbeOutcome → String
  | ProbeOutcome.resolvedOk => ""
  | ProbeOutcome.resolvedNotOk status statusText =>
      "status " ++ toString status ++ " " ++ statusText
  | ProbeOutcome.rejected e => e

/-- Everything one execute call of the single-target check use case does
that the caller or a collaborator can observe: the returned boolean, the
saveLog calls in order, how often the success callback ran, and the
arguments the failure callback received. -/
structure CheckResult where
  returned : Bool
  savedLogs : List LogEntity
  successCalls : Nat
  errorCalls : List String
  deriving DecidableEq, Repr

/-- Modelled from the spec: the Single-Target Check Use Case of section
4.1, whose implementation file is absent from the sources while its test
file pins the behavior. hs and he say whether the optional success and
failure callbacks were supplied; the repository's saveLog is taken to
return normally. An ok probe saves one low entry and fires the success
callback when present; any other outcome saves one high entry whose
message carries the reason and the url and hands that same text to the
failure callback when present. -/
def CheckService.execute (hs he : Bool) (now : Int) (url : String)
    (p : ProbeOutcome) : CheckResult :=
  match p with
  | ProbeOutcome.resolvedOk =>
      { returned := true
        savedLogs := [{ message := some ("Service " ++ url ++ " working")
                        level := some "low"
                        origin := some "check-service.ts"
                        createdAt := JsDate.valid now }]
        successCalls := if hs then 1 else 0
        errorCalls := [] }
  | p =>
      let msg := checkErrorMessage url (probeReason p)
      { returned := false
        savedLogs := [{ message := some msg
                        level := some "high"
                        origin := some "check-service.ts"
                        createdAt := JsDate.valid now }]
        successCalls := 0
        errorCalls := if he then [msg] else [] }

/-- Sequential saveLog fan-out over the repository list, each entry
giving that repository's saveLog behavior (none: returns normally;
some e: raises e). Each repository is called in list order; a raising
repository is still called, and the iteration then aborts. Yields the
number of saveLog calls made and the error that escaped, if any. -/
def fanOut : List (Option String) → Nat × Option String
  | [] => (0, none)
  | r :: rs =>
      match r with
      | some e => (1, some e)
      | none =>
          let rest := fanOut rs
          (rest.1 + 1, rest.2)

/-- How one execute call of a check use case ends at the caller: a
returned boolean, or a repository error escaping unrecovered. -/
inductive CheckOutcome where
  | ret (b : Bool)
  | thrown (e : String)
  deriving DecidableEq, Repr

/-- Everything one execute call of the multi-repository check use case
does that the caller or a collaborator can observe. savedEntity is the
field-identical entry each called repository received; saveCalls counts
the saveLog calls, made in list order from the front. -/
structure MultiResult where
  outcome : CheckOutcome
  saveCalls : Nat
  savedEntity : LogEntity
  successCalls : Nat
  errorCalls : List String
  deriving DecidableEq, Repr

/-- Modelled from the spec: the Multi-Repository Check Use Case of
section 4.2, whose implementation file is absent from the sources while
its test file pins the behavior. repos lists the repositories in order,
each entry giving its saveLog behavior. The probe outcome fixes the
single entry to write; saveLog is then called on every repository in
list order, a repository error aborting the iteration and escaping the
call before any callback runs; otherwise the matching callback fires
when present and the boolean is returned. -/
def CheckServiceMultiple.execute (repos : List (Option String))
    (hs he : Bool) (now : Int) (url : String) (p : ProbeOutcome) :
    MultiResult :=
  match p with
  | ProbeOutcome.resolvedOk =>
      let entity : LogEntity :=
        { message := some ("Service " ++ url ++ " working")
          level := some "low"
          origin := some "check-service.ts"
          createdAt := JsDate.valid now }
      let fo := fanOut repos
      match fo.2 with
      | some e =>
          { outcome := CheckOutcome.thrown e
            saveCalls := fo.1
            savedEntity := entity
            successCalls := 0
            errorCalls := [] }
      | none =>
          { outcome := CheckOutcome.ret true
            saveCalls := fo.1
            savedEntity := entity
            successCalls := if hs then 1 else 0
            errorCalls := [] }
  | p =>
      let msg := checkErrorMessage url (probeReason p)
      let entity : LogEntity :=
        { message := some msg
          level := some "high"
          origin := some "check-service.ts"
          createdAt := JsDate.valid now }
      let fo := fanOut repos
      match fo.2 with
      | some e =>
          { outcome := CheckOutcome.thrown e
            saveCalls := fo.1
            savedEntity := entity
            successCalls := 0
            errorCalls := [] }
      | none =>
          { outcome := CheckOutcome.ret false
            saveCalls := fo.1
            savedEntity := entity
            successCalls := 0
            errorCalls := if he then [msg] else [] }

/-- A JavaScript value raised by the email sender: an Error object
carrying a textual message, a plain string, or anything else denoted by
its default string representation. -/
inductive JsThrown where
  | errorObj (msg : String)
  | str (s : String)
  | other (text : String)
  deriving DecidableEq, Repr

/-- The text description of a raised value, as template-literal
stringification renders it: an Error object as Error: followed by its
message verbatim, a string as itself unchanged, anything else as its
default string representation. -/
def JsThrown.describe : JsThrown → String
  | JsThrown.errorObj m => "Error: " ++ m
  | JsThrown.str s => s
  | JsThrown.other t => t

/-- The recipient argument of the email use case: one address or a list
of addresses. -/
inductive Recipients where
  | one (addr : String)
  | many (addrs : List String)
  deriving DecidableEq, Repr

/-- Everything one execute call of the email use case does that the
caller or a collaborator can observe. -/
structure EmailResult where
  returned : Bool
  savedLogs : List LogEntity
  deriving DecidableEq, Repr

/-- Modelled from the spec: the Send-Email-With-Logs Use Case of section
4.3, whose implementation file is absent from the sources while its test
file pins the behavior. The sender maps the forwarded recipients to a
boolean report or a raised value. A true report returns true with no log
write; a false report saves one high entry reading Error: Failed to send
email and returns false; a raised value is caught, described as text and
saved the same way — nothing is re-raised. The repository's saveLog is
taken to return normally. -/
def SendEmailLogs.execute (now : Int)
    (sender : Recipients → Except JsThrown Bool) (dst : Recipients) :
    EmailResult :=
  match sender dst with
  | Except.ok true => { returned := true, savedLogs := [] }
  | Except.ok false =>
      { returned := false
        savedLogs := [{ message := some "Error: Failed to send email"
                        level := some "high"
                        origin := some "send-email-logs.ts"
                        createdAt := JsDate.valid now }] }
  | Except.error e =>
      { returned := false
        savedLogs := [{ message := some e.describe
                        level := some "high"
                        origin := some "send-email-logs.ts"
                        createdAt := JsDate.valid now }] }

/-- String concatenation is associative; proved by passing to the
underlying character lists. -/
theorem strAppendAssoc (a b c : String) : a ++ b ++ c = a ++ (b ++ c) := by
  apply String.ext
  simp [String.data_append, List.append_assoc]

/-- Fanning out over repositories that all return normally calls every
one of them and lets no error escape. -/
theorem fanOut_all_none (repos : List (Option String))
    (h : ∀ r ∈ repos, r = none) : fanOut repos = (repos.length, none) := by
  induction repos with
  | nil => rfl
  | cons r rs ih =>
      have hr : r = none := h r (List.mem_cons_self r rs)
      subst hr
      simp [fanOut, ih fun x hx => h x (List.mem_cons_of_mem _ hx)]

/-- Fanning out over a list whose first raising repository sits after
pre well-behaved ones calls exactly the repositories up to and including
the raiser and lets its error escape. -/
theorem fanOut_first_raise (pre post : List (Option String)) (e : String)
    (h : ∀ r ∈ pre, r = none) :
    fanOut (pre ++ some e :: post) = (pre.length + 1, some e) := by
  induction pre with
  | nil => rfl
  | cons r rs ih =>
      have hr : r = none := h r (List.mem_cons_self r rs)
      subst hr
      simp [fanOut, ih fun x hx => h x (List.mem_cons_of_mem _ hx)]

/-- Claim C7: an entity built from options with every field supplied and
a valid timestamp, serialized and read back through fromJson, comes back
with the same message, level, origin and createdAt, whatever instants
the two constructions happen at. -/
theorem logEntity_roundTrip (now now2 ms : Int) (msg lvl org : String) :
    LogEntity.fromJson now2
        (JsonText.record ((LogEntity.ofOptions now
          { message := some msg
            level := some lvl
            origin := some org
            createdAt := some (JsDate.valid ms) }).serialize)) =
      LogEntity.ofOptions now
        { message := some msg
          level := some lvl
          origin := some org
          createdAt := some (JsDate.valid ms) } := rfl

/-- The entity fromJson returns for the empty string is not the one
fromObject builds from the empty mapping at the same instant: its
createdAt is the Invalid Date sentinel where the empty structured record
receives the construction-time default, refuting the claimed
equivalence. -/
theorem fromJson_empty_counterexample :
    LogEntity.fromJson 0 JsonText.empty ≠ LogEntity.fromObject 0 emptyRecord ∧
    (LogEntity.fromJson 0 JsonText.empty).createdAt = JsDate.invalid ∧
    (LogEntity.fromObject 0 emptyRecord).createdAt = JsDate.valid 0 := by
  refine ⟨?_, rfl, rfl⟩
  decide

/-- Claim C8 amended: fromJson on the empty string substitutes the empty
mapping and completes without failing, agreeing with the entity built
from an empty structured record on message, level and origin; its
createdAt however is the Invalid Date sentinel, where the empty
structured record receives the construction-time default. -/
theorem fromJson_empty (now now2 : Int) :
    LogEntity.fromJson now JsonText.empty =
      { message := none
        level := none
        origin := none
        createdAt := JsDate.invalid } ∧
    (LogEntity.fromJson now JsonText.empty).message =
      (LogEntity.fromObject now2 emptyRecord).message ∧
    (LogEntity.fromJson now JsonText.empty).level =
      (LogEntity.fromObject now2 emptyRecord).level ∧
    (LogEntity.fromJson now JsonText.empty).origin =
      (LogEntity.fromObject now2 emptyRecord).origin ∧
    (LogEntity.fromObject now2 emptyRecord).createdAt = JsDate.valid now2 :=
  ⟨rfl, rfl, rfl, rfl, rfl⟩

/-- fromObject hands a level outside the enumeration through unchanged,
refuting the claimed invariant that every construction variant yields an
enumerated level. -/
theorem fromObject_invalid_level :
    (LogEntity.fromObject 0
      { message := none
        level := some "banana"
        origin := none
        createdAt := none }).level = some "banana" ∧
    levelInEnum (LogEntity.fromObject 0
      { message := none
        level := some "banana"
        origin := none
        createdAt := none }) = false :=
  ⟨rfl, rfl⟩

/-- Claim C9 amended: no construction variant validates level — each
copies the supplied value verbatim, the empty serialized form reading as
undefined — so the produced level lies in the enumeration exactly when
the supplied one does; options carrying an enumeration member's string
value therefore always yield an in-range level. -/
theorem level_passthrough (now : Int) (o : LogEntityOptions)
    (r : JsRecord) (l : LogSeverityLevel) :
    (LogEntity.ofOptions now o).level = o.level ∧
    (LogEntity.fromObject now r).level = r.level ∧
    (LogEntity.fromJson now (JsonText.record r)).level = r.level ∧
    (LogEntity.fromJson now JsonText.empty).level = none ∧
    isLevelValue (LogSeverityLevel.str l) = true := by
  refine ⟨rfl, rfl, rfl, rfl, ?_⟩
  cases l <;> rfl

/-- Claim C10: a serialized record without createdAt — the empty string
included — comes back from fromJson with the Invalid Date sentinel,
never with the construction default, because fromJson always feeds new
Date of the absent field to the constructor. -/
theorem fromJson_absent_createdAt (now : Int) (r : JsRecord)
    (h : r.createdAt = none) :
    (LogEntity.fromJson now (JsonText.record r)).createdAt =
      JsDate.invalid ∧
    (LogEntity.fromJson now JsonText.empty).createdAt = JsDate.invalid := by
  constructor
  · simp [LogEntity.fromJson, LogEntity.ofOptions, jsNewDate, h]
  · rfl

/-- Concrete instance of fromJson_absent_createdAt at the empty mapping
and instant 7. -/
theorem fromJson_absent_createdAt_witness :
    (LogEntity.fromJson 7 (JsonText.record emptyRecord)).createdAt =
      JsDate.invalid ∧
    (LogEntity.fromJson 7 JsonText.empty).createdAt = JsDate.invalid :=
  fromJson_absent_createdAt 7 emptyRecord rfl

/-- Claim C1: for every URL whose probe comes back with an ok-class
status, the single-target check returns true, makes exactly one saveLog
call of a low entry reading Service url working with the fixed origin,
fires the success callback exactly once when present and never when
absent, and never touches the failure callback. -/
theorem checkService_ok (hs he : Bool) (now : Int) (url : String) :
    CheckService.execute hs he now url ProbeOutcome.resolvedOk =
      { returned := true
        savedLogs := [{ message := some ("Service " ++ url ++ " working")
                        level := some "low"
                        origin := some "check-service.ts"
                        createdAt := JsDate.valid now }]
        successCalls := if hs then 1 else 0
        errorCalls := [] } := rfl

/-- Claim C2: for every URL whose probe resolves with a non-ok status or
rejects with a transport error, the single-target check returns false,
makes exactly one saveLog call of a high entry whose message carries the
URL, hands the failure callback (when present) exactly that one text
carrying the URL, and never touches the success callback. -/
theorem checkService_fail (hs he : Bool) (now : Int)
    (url statusText e : String) (status : Nat) :
    CheckService.execute hs he now url
        (ProbeOutcome.resolvedNotOk status statusText) =
      { returned := false
        savedLogs := [{ message := some (checkErrorMessage url
                          (probeReason
                            (ProbeOutcome.resolvedNotOk status statusText)))
                        level := some "high"
                        origin := some "check-service.ts"
                        createdAt := JsDate.valid now }]
        successCalls := 0
        errorCalls := if he then
          [checkErrorMessage url
            (probeReason (ProbeOutcome.resolvedNotOk status statusText))]
          else [] } ∧
    CheckService.execute hs he now url (ProbeOutcome.rejected e) =
      { returned := false
        savedLogs := [{ message := some (checkErrorMessage url
                          (probeReason (ProbeOutcome.rejected e)))
                        level := some "high"
                        origin := some "check-service.ts"
                        createdAt := JsDate.valid now }]
        successCalls := 0
        errorCalls := if he then
          [checkErrorMessage url (probeReason (ProbeOutcome.rejected e))]
          else [] } ∧
    (∀ reason : String, ∃ a b : String,
      checkErrorMessage url reason = a ++ url ++ b) :=
  ⟨rfl, rfl, fun reason =>
    ⟨"Service ", " failing: " ++ reason,
      strAppendAssoc ("Service " ++ url) " failing: " reason⟩⟩

/-- Claim C3: with repositories none of whose saveLog calls raise, one
execute of the multi-repository check makes exactly one saveLog call per
repository — in list order from the front, all with the same entry — and
its outcome, callback firing and logged entry are those of the run with
no repositories at all. -/
theorem checkMultiple_fanOut (repos : List (Option String)) (hs he : Bool)
    (now : Int) (url : String) (p : ProbeOutcome)
    (h : ∀ r ∈ repos, r = none) :
    (CheckServiceMultiple.execute repos hs he now url p).saveCalls =
      repos.length ∧
    (CheckServiceMultiple.execute repos hs he now url p).outcome =
      (CheckServiceMultiple.execute [] hs he now url p).outcome ∧
    (CheckServiceMultiple.execute repos hs he now url p).savedEntity =
      (CheckServiceMultiple.execute [] hs he now url p).savedEntity ∧
    (CheckServiceMultiple.execute repos hs he now url p).successCalls =
      (CheckServiceMultiple.execute [] hs he now url p).successCalls ∧
    (CheckServiceMultiple.execute repos hs he now url p).errorCalls =
      (CheckServiceMultiple.execute [] hs he now url p).errorCalls := by
  have hf := fanOut_all_none repos h
  cases p <;> simp [CheckServiceMultiple.execute, hf, fanOut]

/-- Concrete instance of checkMultiple_fanOut: two well-behaved
repositories on an ok probe. -/
theorem checkMultiple_fanOut_witness :
    (CheckServiceMultiple.execute [none, none] true true 0
        "https://a.example" ProbeOutcome.resolvedOk).saveCalls =
      ([none, none] : List (Option String)).length ∧
    (CheckServiceMultiple.execute [none, none] true true 0
        "https://a.example" ProbeOutcome.resolvedOk).outcome =
      (CheckServiceMultiple.execute [] true true 0
        "https://a.example" ProbeOutcome.resolvedOk).outcome ∧
    (CheckServiceMultiple.execute [none, none] true true 0
        "https://a.example" ProbeOutcome.resolvedOk).savedEntity =
      (CheckServiceMultiple.execute [] true true 0
        "https://a.example" ProbeOutcome.resolvedOk).savedEntity ∧
    (CheckServiceMultiple.execute [none, none] true true 0
        "https://a.example" ProbeOutcome.resolvedOk).successCalls =
      (CheckServiceMultiple.execute [] true true 0
        "https://a.example" ProbeOutcome.resolvedOk).successCalls ∧
    (CheckServiceMultiple.execute [none, none] true true 0
        "https://a.example" ProbeOutcome.resolvedOk).errorCalls =
      (CheckServiceMultiple.execute [] true true 0
        "https://a.example" ProbeOutcome.resolvedOk).errorCalls :=
  checkMultiple_fanOut [none, none] true true 0 "https://a.example"
    ProbeOutcome.resolvedOk (by simp)

/-- Claim C4: when the saveLog of some repository raises during the
fan-out, the raised error escapes execute unrecovered and the saveLog
calls stop right at the raiser — the repositories after it in the list
are never called. -/
theorem checkMultiple_raise (pre post : List (Option String)) (e : String)
    (hs he : Bool) (now : Int) (url : String) (p : ProbeOutcome)
    (h : ∀ r ∈ pre, r = none) :
    (CheckServiceMultiple.execute (pre ++ some e :: post)
        hs he now url p).outcome = CheckOutcome.thrown e ∧
    (CheckServiceMultiple.execute (pre ++ some e :: post)
        hs he now url p).saveCalls = pre.length + 1 := by
  have hf := fanOut_first_raise pre post e h
  cases p <;> simp [CheckServiceMultiple.execute, hf]

/-- Concrete instance of checkMultiple_raise: the second of three
repositories raises on an ok probe. -/
theorem checkMultiple_raise_witness :
    (CheckServiceMultiple.execute ([none] ++ some "boom" :: [none])
        true true 0 "https://a.example" ProbeOutcome.resolvedOk).outcome =
      CheckOutcome.thrown "boom" ∧
    (CheckServiceMultiple.execute ([none] ++ some "boom" :: [none])
        true true 0 "https://a.example" ProbeOutcome.resolvedOk).saveCalls =
      ([none] : List (Option String)).length + 1 :=
  checkMultiple_raise [none] [none] "boom" true true 0 "https://a.example"
    ProbeOutcome.resolvedOk (by simp)

/-- Claim C5: whatever the recipient input, when the sender reports a
boolean the email use case returns that boolean; a true report writes no
log, a false report makes exactly one saveLog call of a high entry whose
message is exactly Error: Failed to send email. -/
theorem sendEmailLogs_report (now : Int)
    (sender : Recipients → Except JsThrown Bool) (dst : Recipients)
    (b : Bool) (h : sender dst = Except.ok b) :
    SendEmailLogs.execute now sender dst =
      (if b then { returned := true, savedLogs := [] } else
        { returned := false
          savedLogs := [{ message := some "Error: Failed to send email"
                          level := some "high"
                          origin := some "send-email-logs.ts"
                          createdAt := JsDate.valid now }] } : EmailResult) := by
  cases b <;> simp [SendEmailLogs.execute, h]

/-- Concrete instance of sendEmailLogs_report: a sender reporting false
on one address. -/
theorem sendEmailLogs_report_witness :
    SendEmailLogs.execute 0 (fun _ => Except.ok false)
        (Recipients.one "a@x.example") =
      (if false then { returned := true, savedLogs := [] } else
        { returned := false
          savedLogs := [{ message := some "Error: Failed to send email"
                          level := some "high"
                          origin := some "send-email-logs.ts"
                          createdAt := JsDate.valid 0 }] } : EmailResult) :=
  sendEmailLogs_report 0 (fun _ => Except.ok false)
    (Recipients.one "a@x.example") false rfl

/-- Claim C6: whatever value the sender raises, the email use case
returns false without re-raising after exactly one saveLog call of a
high entry whose message is the raised value's description: an Error
object's message verbatim behind Error: , a raised string unchanged,
anything else by its default string representation. -/
theorem sendEmailLogs_raise (now : Int)
    (sender : Recipients → Except JsThrown Bool) (dst : Recipients)
    (e : JsThrown) (h : sender dst = Except.error e) :
    SendEmailLogs.execute now sender dst =
      { returned := false
        savedLogs := [{ message := some (match e with
                          | JsThrown.errorObj m => "Error: " ++ m
                          | JsThrown.str s => s
                          | JsThrown.other t => t)
                        level := some "high"
                        origin := some "send-email-logs.ts"
                        createdAt := JsDate.valid now }] } := by
  cases e <;> simp [SendEmailLogs.execute, h, JsThrown.describe]

/-- Concrete instance of sendEmailLogs_raise: a sender raising an Error
object on one address. -/
theorem sendEmailLogs_raise_witness :
    SendEmailLogs.execute 0
        (fun _ => Except.error (JsThrown.errorObj "SMTP connection failed"))
        (Recipients.one "a@x.example") =
      { returned := false
        savedLogs := [{ message := some "Error: SMTP connection failed"
                        level := some "high"
                        origin := some "send-email-logs.ts"
                        createdAt := JsDate.valid 0 }] } :=
  sendEmailLogs_raise 0
    (fun _ => Except.error (JsThrown.errorObj "SMTP connection failed"))
    (Recipients.one "a@x.example") (JsThrown.errorObj "SMTP connection failed")
    rfl
